import Mathlib

/-!
Verification of the resilient two-stage processing pipeline of the
Sentient Planner repository (stream-consumer Lambda `processor.py` and the
long-running ASCII worker `worker.py`), as a shallow embedding in Lean.

Conventions of the embedding:
* Python JSON values are the inductive `Json` (numbers are modelled as
  integers; every number appearing in this pipeline is integral).
* A Python function that can raise is modelled as returning
  `Except String α`; `.error` is a raised exception, and a `try/except`
  block is the corresponding `match`.
* External effects (the Gemini SDK call, DynamoDB puts, SQS sends, S3 puts,
  clock reads, `uuid.uuid4()`) are modelled by explicit outcome parameters
  carried in per-record environments; the data actually written is threaded
  through explicit state (lists standing for the DynamoDB table, the SQS
  queue and the S3 bucket).
-/

namespace SentientPlanner

/-- A JSON value as Python's `json.loads` produces it.  Object fields keep
the insertion order of the source dictionaries. -/
inductive Json where
  | null
  | bool (b : Bool)
  | num (n : Int)
  | str (s : String)
  | arr (xs : List Json)
  | obj (fields : List (String × Json))

/-- Python dictionary access `d.get(k)` on a JSON object: the first binding
of the key, `none` when the key is absent or the value is not an object. -/
def Json.getField (j : Json) (k : String) : Option Json :=
  match j with
  | .obj fs => fs.lookup k
  | _ => none

/-- Python truthiness (`if not x`): `None`, `False`, `0`, `""`, `[]` and
`{}` are falsy, everything else is truthy. -/
def pyFalsy (j : Json) : Bool :=
  match j with
  | .null => true
  | .bool b => !b
  | .num n => n == 0
  | .str s => s == ""
  | .arr xs => xs.isEmpty
  | .obj fs => fs.isEmpty

/-- Python `s.lower()`, over the ASCII range where Python and Lean agree
(the labels this pipeline compares are ASCII). -/
def pyLower (s : String) : String := ⟨s.data.map Char.toLower⟩

/-- Python `s.strip()`: drop leading and trailing whitespace. -/
def pyStrip (s : String) : String :=
  ⟨((s.data.dropWhile Char.isWhitespace).reverse.dropWhile Char.isWhitespace).reverse⟩

/-- Python `int(x)` on a JSON value: identity on integers, `True/False`
become `1/0`, a string is parsed (surrounding whitespace allowed), anything
else raises `TypeError`. -/
def pyInt (j : Json) : Except String Int :=
  match j with
  | .num n => .ok n
  | .bool b => .ok (if b then 1 else 0)
  | .str s =>
      match (pyStrip s).toInt? with
      | some n => .ok n
      | none => .error "ValueError: invalid literal for int"
  | _ => .error "TypeError: int() argument"

/-- Python string slicing `s[:n]`. -/
def pyTake (s : String) (n : Nat) : String := ⟨s.data.take n⟩

/-- Python `x == "f"` between an arbitrary value and a string literal: true
exactly for the equal string. -/
def Json.eqStr (j : Json) (f : String) : Bool :=
  match j with
  | .str s => s == f
  | _ => false

/-- `p` occurs as a contiguous sublist of the second argument (Python
substring containment, over the characters). -/
def listSub (p : List Char) : List Char → Bool
  | [] => p.isEmpty
  | c :: rest => p.isPrefixOf (c :: rest) || listSub p rest

/-- Python `f in x` for a string `f`: key membership for a dict, element
membership for a list, substring test for a string; `TypeError` otherwise. -/
def pyContains (j : Json) (f : String) : Except String Bool :=
  match j with
  | .obj fs => .ok (fs.any (fun p => p.fst == f))
  | .arr xs => .ok (xs.any (fun x => x.eqStr f))
  | .str s => .ok (listSub f.toList s.toList)
  | _ => .error "TypeError: argument is not iterable"

/-! ## Processor Lambda — `src/lambdas/processor/processor.py` -/

/-- The observable outcome of one Gemini SDK interaction, as seen by
`call_gemini_api`: the SDK import failed (`GEMINI_AVAILABLE = False`), some
exception was raised during configuration / generation / `json.loads`
(timeouts and malformed JSON land here), or `json.loads(response.text)`
returned the value `j`. -/
inductive GeminiOutcome where
  | sdkUnavailable
  | raised
  | response (j : Json)

/-- `required_fields` of `call_gemini_api` (processor.py line 165). -/
def required_fields : List String := ["emotion", "sentiment_score", "weekly_plan"]

/-- The `for field in required_fields` validation loop (processor.py lines
166-168): raises `ValueError` at the first absent field, and `f in result`
itself raises `TypeError` on a non-container result. -/
def validateLoop (fields : List String) (j : Json) : Except String Unit :=
  match fields with
  | [] => .ok ()
  | f :: rest =>
      match pyContains j f with
      | .error e => .error e
      | .ok false => .error ("Missing required field: " ++ f)
      | .ok true => validateLoop rest j

/-- The seven day-entries of the static fallback weekly plan
(processor.py lines 188-231). -/
def fallbackDays : List Json := [
  .obj [("day", .str "Monday"),
        ("tasks", .arr [.str "Review weekly goals", .str "Organize workspace",
                        .str "Plan the week ahead"]),
        ("focus", .str "Organization and clarity"),
        ("self_care", .str "Take a 15-minute walk")],
  .obj [("day", .str "Tuesday"),
        ("tasks", .arr [.str "Focus on priority tasks", .str "Respond to pending messages",
                        .str "Document progress"]),
        ("focus", .str "Productivity"),
        ("self_care", .str "Practice deep breathing exercises")],
  .obj [("day", .str "Wednesday"),
        ("tasks", .arr [.str "Midweek review", .str "Adjust plans if needed",
                        .str "Connect with a colleague"]),
        ("focus", .str "Adaptation and connection"),
        ("self_care", .str "Enjoy a healthy lunch mindfully")],
  .obj [("day", .str "Thursday"),
        ("tasks", .arr [.str "Continue priority work", .str "Prepare for end of week",
                        .str "Learn something new"]),
        ("focus", .str "Growth and momentum"),
        ("self_care", .str "Listen to calming music")],
  .obj [("day", .str "Friday"),
        ("tasks", .arr [.str "Complete weekly tasks", .str "Review accomplishments",
                        .str "Set intentions for next week"]),
        ("focus", .str "Completion and reflection"),
        ("self_care", .str "Celebrate small wins")],
  .obj [("day", .str "Saturday"),
        ("tasks", .arr [.str "Rest and recharge", .str "Pursue a hobby",
                        .str "Spend time with loved ones"]),
        ("focus", .str "Personal time"),
        ("self_care", .str "Sleep in if needed")],
  .obj [("day", .str "Sunday"),
        ("tasks", .arr [.str "Gentle preparation for the week", .str "Meal prep",
                        .str "Relaxation"]),
        ("focus", .str "Renewal"),
        ("self_care", .str "Practice gratitude journaling")]]

/-- `get_fallback_response` (processor.py lines 178-233): the static payload
substituted whenever the inference call fails. -/
def get_fallback_response : Json :=
  .obj [("emotion", .str "neutral"),
        ("sentiment_score", .num 50),
        ("weekly_plan", .arr fallbackDays),
        ("_fallback", .bool true)]

/-- `call_gemini_api` (processor.py lines 111-175).  The SDK-unavailable
guard returns the fallback before the `try`; every exception inside the
`try` (configuration, generation, `json.loads`, the field-validation
`raise`) is caught by `except Exception` and also yields the fallback. -/
def call_gemini_api (user_text : String) (api_key : Json) (o : GeminiOutcome) : Json :=
  match o with
  | .sdkUnavailable => get_fallback_response
  | .raised => get_fallback_response
  | .response j =>
      match validateLoop required_fields j with
      | .error _ => get_fallback_response
      | .ok _ => j

/-- An inference interaction counts as a failure when the SDK is missing, an
exception was raised, or the decoded response fails the required-field
validation. -/
def geminiFailure (o : GeminiOutcome) : Bool :=
  match o with
  | .sdkUnavailable => true
  | .raised => true
  | .response j =>
      match validateLoop required_fields j with
      | .error _ => true
      | .ok _ => false

/-- C1: for every inference-call failure (SDK unavailable, any exception
during the call, malformed JSON, or a missing required top-level field),
`call_gemini_api` returns exactly the fixed fallback payload — emotion
`"neutral"`, sentiment score `50`, the fixed 7-day weekly plan, and the
fallback flag set — and this value is identical across all such calls. -/
theorem call_gemini_api_fallback_on_failure (t : String) (k : Json) (o : GeminiOutcome)
    (h : geminiFailure o = true) :
    call_gemini_api t k o = get_fallback_response
    ∧ Json.getField get_fallback_response "emotion" = some (.str "neutral")
    ∧ Json.getField get_fallback_response "sentiment_score" = some (.num 50)
    ∧ Json.getField get_fallback_response "weekly_plan" = some (.arr fallbackDays)
    ∧ fallbackDays.length = 7
    ∧ Json.getField get_fallback_response "_fallback" = some (.bool true)
    ∧ (∀ (t2 : String) (k2 : Json) (o2 : GeminiOutcome), geminiFailure o2 = true →
        call_gemini_api t2 k2 o2 = call_gemini_api t k o) := by
  have hmain : ∀ (t2 : String) (k2 : Json) (o2 : GeminiOutcome), geminiFailure o2 = true →
      call_gemini_api t2 k2 o2 = get_fallback_response := by
    intro t2 k2 o2 h2
    cases o2 with
    | sdkUnavailable => rfl
    | raised => rfl
    | response j =>
        have h3 : (match validateLoop required_fields j with
            | Except.error _ => true
            | Except.ok _ => false) = true := h2
        show (match validateLoop required_fields j with
            | Except.error _ => get_fallback_response
            | Except.ok _ => j) = get_fallback_response
        cases hv : validateLoop required_fields j with
        | error e => rfl
        | ok u => rw [hv] at h3; simp at h3
  refine ⟨hmain t k o h, rfl, rfl, rfl, rfl, rfl, ?_⟩
  intro t2 k2 o2 h2
  rw [hmain t2 k2 o2 h2, hmain t k o h]

/-- Witness for C1 at the concrete failure `sdkUnavailable`. -/
theorem call_gemini_api_fallback_on_failure_witness :
    geminiFailure GeminiOutcome.sdkUnavailable = true
    ∧ (call_gemini_api "" Json.null GeminiOutcome.sdkUnavailable = get_fallback_response
       ∧ Json.getField get_fallback_response "emotion" = some (.str "neutral")
       ∧ Json.getField get_fallback_response "sentiment_score" = some (.num 50)
       ∧ Json.getField get_fallback_response "weekly_plan" = some (.arr fallbackDays)
       ∧ fallbackDays.length = 7
       ∧ Json.getField get_fallback_response "_fallback" = some (.bool true)
       ∧ (∀ (t2 : String) (k2 : Json) (o2 : GeminiOutcome), geminiFailure o2 = true →
           call_gemini_api t2 k2 o2
             = call_gemini_api "" Json.null GeminiOutcome.sdkUnavailable)) :=
  ⟨rfl, call_gemini_api_fallback_on_failure "" Json.null GeminiOutcome.sdkUnavailable rfl⟩

/-- One item of the DynamoDB table, with the attributes `save_to_dynamodb`
writes (processor.py lines 246-258).  `AsciiGeneratedAt` is absent at
creation and added by the worker's update, so it is modelled as an
`Option`. -/
structure PlanRecord where
  UserId : String
  Timestamp : String
  RecordId : String
  UserText : String
  Emotion : Json
  SentimentScore : Int
  WeeklyPlan : Json
  AsciiUrl : Option String
  AsciiStatus : String
  AsciiGeneratedAt : Option String
  CreatedAt : String
  IsFallback : Json

/-- The SQS message body `push_to_sqs` serialises (processor.py lines
283-288). -/
structure SqsMessage where
  record_id : String
  user_id : Json
  emotion : Json
  timestamp : String

/-- `save_to_dynamodb` (processor.py lines 236-265).  `putOk` is the
DynamoDB `put_item` outcome (`false` = `ClientError`/`BotoCoreError`, which
the function logs and re-raises).  Item construction itself can raise: the
`.get` calls raise `AttributeError` on a non-dict analysis result,
`int(...)` can raise on a non-numeric sentiment score, and DynamoDB rejects
a non-string partition-key value.  On success the function returns the item
it put, to be appended to the table state by the caller. -/
def save_to_dynamodb (putOk : Bool) (user_id : Json) (record_id : String)
    (user_text : String) (now : String) (analysis : Json) : Except String PlanRecord :=
  match analysis with
  | .obj af =>
      match user_id with
      | .str uid =>
          match pyInt ((af.lookup "sentiment_score").getD (.num 50)) with
          | .error e => .error e
          | .ok score =>
              if putOk then
                .ok { UserId := uid
                      Timestamp := now
                      RecordId := record_id
                      UserText := pyTake user_text 10000
                      Emotion := (af.lookup "emotion").getD (.str "unknown")
                      SentimentScore := score
                      WeeklyPlan := (af.lookup "weekly_plan").getD (.arr [])
                      AsciiUrl := none
                      AsciiStatus := "pending"
                      AsciiGeneratedAt := none
                      CreatedAt := now
                      IsFallback := (af.lookup "_fallback").getD (.bool false) }
              else .error "ClientError: put_item"
      | _ => .error "ClientError: key type mismatch"
  | _ => .error "AttributeError: get on non-dict"

/-- `push_to_sqs` (processor.py lines 268-303).  `sendOk` is the transport
outcome of `sqs.send_message`.  The function never raises: a missing queue
URL short-circuits to `false`, and `ClientError`/`BotoCoreError` from the
send is caught and converted to `false` (graceful degradation).  On success
it also yields the message that entered the queue. -/
def push_to_sqs (sqsQueueUrl : String) (sendOk : Bool) (record_id : String)
    (emotion : Json) (user_id : Json) (now : String) :
    Except String (Bool × Option SqsMessage) :=
  if sqsQueueUrl == "" then .ok (false, none)
  else if sendOk then
    .ok (true, some { record_id := record_id, user_id := user_id,
                      emotion := emotion, timestamp := now })
  else .ok (false, none)

/-- The external outcomes consumed while the handler processes one Kinesis
record: the fresh `uuid.uuid4()`, the clock, the decode/parse outcome of
`parse_kinesis_record` (base64 + `json.loads`), the secrets fetch outcome
(used only when the process cache is empty), the Gemini interaction, and
the DynamoDB / SQS transport outcomes. -/
structure ProcEnv where
  recordId : String
  now : String
  parseResult : Except String Json
  secretsFetch : Except String Json
  gemini : GeminiOutcome
  putOk : Bool
  sendOk : Bool

/-- The state the handler reads and writes: the process-wide secrets cache,
the DynamoDB table, the SQS queue, and the invocation's counters. -/
structure ProcState where
  secretsCache : Option Json
  db : List PlanRecord
  queue : List SqsMessage
  processed : Nat
  errors : Nat

/-- `get_secrets` (processor.py lines 77-95): returns the process-wide
cached secrets when present, otherwise the outcome of the Secrets Manager
fetch (a `ClientError` is logged and re-raised; a decode failure of the
secret string also propagates). -/
def get_secrets (cache : Option Json) (fetch : Except String Json) : Except String Json :=
  match cache with
  | some s => .ok s
  | none => fetch

/-- The per-record body of `handler` (processor.py lines 315-354): the
whole body sits in one `try` whose `except Exception` increments the error
count and continues.  An empty `text` is skipped with neither counter
touched.  `get_secrets` is called inside the `try` and its cache is only
filled on a successful fetch. -/
def processRecord (sqsQueueUrl : String) (st : ProcState) (env : ProcEnv) : ProcState :=
  match env.parseResult with
  | .error _ => { st with errors := st.errors + 1 }
  | .ok input =>
      match input with
      | .obj fs =>
          let user_text := (fs.lookup "text").getD (.str "")
          let user_id := (fs.lookup "userId").getD (.str "anonymous")
          if pyFalsy user_text then st
          else
            match user_text with
            | .str t =>
                match get_secrets st.secretsCache env.secretsFetch with
                | .error _ => { st with errors := st.errors + 1 }
                | .ok secrets =>
                    let st1 := { st with secretsCache := some secrets }
                    match secrets with
                    | .obj sf =>
                        let gemini_key := (sf.lookup "GEMINI_KEY").getD (.str "")
                        let analysis := call_gemini_api t gemini_key env.gemini
                        match save_to_dynamodb env.putOk user_id env.recordId t
                            env.now analysis with
                        | .error _ => { st1 with errors := st1.errors + 1 }
                        | .ok item =>
                            let st2 := { st1 with db := st1.db ++ [item] }
                            match analysis with
                            | .obj af =>
                                let emotion := (af.lookup "emotion").getD (.str "neutral")
                                match push_to_sqs sqsQueueUrl env.sendOk env.recordId
                                    emotion user_id env.now with
                                | .error _ => { st2 with errors := st2.errors + 1 }
                                | .ok (_, msgOpt) =>
                                    let st3 := match msgOpt with
                                      | some m => { st2 with queue := st2.queue ++ [m] }
                                      | none => st2
                                    { st3 with processed := st3.processed + 1 }
                            | _ => { st2 with errors := st2.errors + 1 }
                    | _ => { st1 with errors := st1.errors + 1 }
            | _ =>
                -- truthy non-string text: `len(user_text)` in the log call raises
                { st with errors := st.errors + 1 }
      | _ =>
          -- `input_data.get` raises on a non-dict parse result
          { st with errors := st.errors + 1 }

/-- The batch response `handler` builds (processor.py lines 356-363); the
body is the JSON serialisation of the two counters. -/
structure HandlerResponse where
  statusCode : Nat
  processed : Nat
  errors : Nat

/-- `handler` (processor.py lines 306-366): counters start at zero for the
invocation, every record is processed through `processRecord`, and a
success response carrying the final counters is always returned. -/
def handler (sqsQueueUrl : String) (st0 : ProcState) (envs : List ProcEnv) :
    ProcState × HandlerResponse :=
  let fin := envs.foldl (processRecord sqsQueueUrl) { st0 with processed := 0, errors := 0 }
  (fin, { statusCode := 200, processed := fin.processed, errors := fin.errors })

theorem pyTake_length_le (s : String) (n : Nat) : (pyTake s n).length ≤ n := by
  show (s.data.take n).length ≤ n
  rw [List.length_take]
  exact min_le_left n s.data.length

/-- Every item `save_to_dynamodb` successfully puts has a `"pending"`
artifact status, a null artifact URL, and its text truncated to 10000
characters; success also forces the analysis value to be a JSON object. -/
theorem save_to_dynamodb_ok (putOk : Bool) (uid : Json) (rid txt now : String)
    (analysis : Json) (item : PlanRecord)
    (h : save_to_dynamodb putOk uid rid txt now analysis = .ok item) :
    item.AsciiStatus = "pending" ∧ item.AsciiUrl = none
    ∧ item.UserText = pyTake txt 10000 ∧ ∃ af, analysis = Json.obj af := by
  unfold save_to_dynamodb at h
  repeat' split at h
  any_goals exact Except.noConfusion h
  injection h with h
  subst h
  exact ⟨rfl, rfl, rfl, ⟨_, rfl⟩⟩

/-- Shape of `processRecord` on a record that decodes to an object with
non-empty string text, with secrets available and a successful DynamoDB
put: exactly `item` is appended to the table, the record is counted as
processed, and a failed (or skipped) SQS send leaves the queue unchanged. -/
theorem processRecord_success_shape (u : String) (st : ProcState) (env : ProcEnv)
    (fs sf : List (String × Json)) (t : String) (item : PlanRecord)
    (hparse : env.parseResult = .ok (.obj fs))
    (htext : fs.lookup "text" = some (.str t))
    (hne : t ≠ "")
    (hsec : get_secrets st.secretsCache env.secretsFetch = Except.ok (Json.obj sf))
    (hsave : save_to_dynamodb env.putOk ((fs.lookup "userId").getD (.str "anonymous"))
        env.recordId t env.now
        (call_gemini_api t ((sf.lookup "GEMINI_KEY").getD (.str "")) env.gemini)
        = .ok item) :
    (processRecord u st env).db = st.db ++ [item]
    ∧ (processRecord u st env).processed = st.processed + 1
    ∧ (processRecord u st env).errors = st.errors
    ∧ (env.sendOk = false → (processRecord u st env).queue = st.queue) := by
  obtain ⟨hstat, hurl, htxt, af, haf⟩ :=
    save_to_dynamodb_ok env.putOk _ env.recordId t env.now _ item hsave
  have hfal : pyFalsy (.str t) = false := by simp [pyFalsy, hne]
  unfold processRecord
  rw [hparse]
  simp only [htext, Option.getD_some, hfal, Bool.false_eq_true, if_false, hsec, hsave, haf,
    push_to_sqs]
  cases hu : u == "" <;>
    simp only [hu, Bool.false_eq_true, if_false, if_true, ite_true, ite_false]
  · cases hsend : env.sendOk <;> simp_all
  · simp_all

/-- C2: for every successfully decoded stream record with non-empty text
(and its per-record dependencies available), the stream-consumer stage
appends exactly one `PlanRecord` to the table, and that record has
`AsciiStatus = "pending"`, `AsciiUrl = null` and its text truncated to at
most 10000 characters. -/
theorem stream_consumer_creates_pending_record (u : String) (st : ProcState) (env : ProcEnv)
    (fs sf : List (String × Json)) (t : String) (item : PlanRecord)
    (hparse : env.parseResult = .ok (.obj fs))
    (htext : fs.lookup "text" = some (.str t))
    (hne : t ≠ "")
    (hsec : get_secrets st.secretsCache env.secretsFetch = Except.ok (Json.obj sf))
    (hsave : save_to_dynamodb env.putOk ((fs.lookup "userId").getD (.str "anonymous"))
        env.recordId t env.now
        (call_gemini_api t ((sf.lookup "GEMINI_KEY").getD (.str "")) env.gemini)
        = .ok item) :
    (processRecord u st env).db = st.db ++ [item]
    ∧ item.AsciiStatus = "pending"
    ∧ item.AsciiUrl = none
    ∧ item.UserText = pyTake t 10000
    ∧ item.UserText.length ≤ 10000 := by
  obtain ⟨hdb, -, -, -⟩ :=
    processRecord_success_shape u st env fs sf t item hparse htext hne hsec hsave
  obtain ⟨hstat, hurl, htxt, -⟩ :=
    save_to_dynamodb_ok env.putOk _ env.recordId t env.now _ item hsave
  exact ⟨hdb, hstat, hurl, htxt, htxt ▸ pyTake_length_le t 10000⟩

/-- Concrete values used by the witnesses of the stream-consumer claims:
one record `{"text": "hello", "userId": "u1"}`, the secrets available, the
inference SDK unavailable (so the fallback payload is used), and a
successful DynamoDB put. -/
def wState : ProcState :=
  { secretsCache := none, db := [], queue := [], processed := 0, errors := 0 }

/-- Witness record environment with a successful SQS send. -/
def wEnv : ProcEnv :=
  { recordId := "r1", now := "T0",
    parseResult := .ok (.obj [("text", .str "hello"), ("userId", .str "u1")]),
    secretsFetch := .ok (.obj [("GEMINI_KEY", .str "k")]),
    gemini := .sdkUnavailable, putOk := true, sendOk := true }

/-- Witness record environment whose SQS send fails at the transport. -/
def wEnvNoSend : ProcEnv := { wEnv with sendOk := false }

/-- The item the witness run is expected to put. -/
def wItem : PlanRecord :=
  { UserId := "u1", Timestamp := "T0", RecordId := "r1", UserText := "hello",
    Emotion := .str "neutral", SentimentScore := 50, WeeklyPlan := .arr fallbackDays,
    AsciiUrl := none, AsciiStatus := "pending", AsciiGeneratedAt := none,
    CreatedAt := "T0", IsFallback := .bool true }

/-- Witness for C2 at a concrete record. -/
theorem stream_consumer_creates_pending_record_witness :
    wEnv.parseResult = .ok (.obj [("text", .str "hello"), ("userId", .str "u1")])
    ∧ ("hello" : String) ≠ ""
    ∧ ((processRecord "url" wState wEnv).db = wState.db ++ [wItem]
       ∧ wItem.AsciiStatus = "pending"
       ∧ wItem.AsciiUrl = none
       ∧ wItem.UserText = pyTake "hello" 10000
       ∧ wItem.UserText.length ≤ 10000) :=
  ⟨rfl, by decide,
   stream_consumer_creates_pending_record "url" wState wEnv
     [("text", .str "hello"), ("userId", .str "u1")] [("GEMINI_KEY", .str "k")] "hello" wItem
     rfl rfl (by decide) rfl rfl⟩

/-- C4: a transport failure while dispatching the SecondaryJob makes
`push_to_sqs` return `false` (it never raises), and the `PlanRecord`
persisted just before the dispatch attempt is still appended, still a
member of the resulting table, and the record is still counted as
processed; the queue is simply left unchanged. -/
theorem dispatch_failure_keeps_record (u : String) (st : ProcState) (env : ProcEnv)
    (fs sf : List (String × Json)) (t : String) (item : PlanRecord)
    (hparse : env.parseResult = .ok (.obj fs))
    (htext : fs.lookup "text" = some (.str t))
    (hne : t ≠ "")
    (hsec : get_secrets st.secretsCache env.secretsFetch = Except.ok (Json.obj sf))
    (hsave : save_to_dynamodb env.putOk ((fs.lookup "userId").getD (.str "anonymous"))
        env.recordId t env.now
        (call_gemini_api t ((sf.lookup "GEMINI_KEY").getD (.str "")) env.gemini)
        = .ok item)
    (hsend : env.sendOk = false) :
    (∀ (url rid : String) (em uid2 : Json) (ts : String),
        push_to_sqs url false rid em uid2 ts = .ok (false, none))
    ∧ (processRecord u st env).db = st.db ++ [item]
    ∧ item ∈ (processRecord u st env).db
    ∧ (processRecord u st env).queue = st.queue
    ∧ (processRecord u st env).processed = st.processed + 1 := by
  obtain ⟨hdb, hproc, -, hq⟩ :=
    processRecord_success_shape u st env fs sf t item hparse htext hne hsec hsave
  refine ⟨?_, hdb, ?_, hq hsend, hproc⟩
  · intro url rid em uid2 ts
    unfold push_to_sqs
    cases hu : url == "" <;> simp [hu]
  · rw [hdb]; simp

/-- Witness for C4 at a concrete record whose SQS send fails. -/
theorem dispatch_failure_keeps_record_witness :
    wEnvNoSend.sendOk = false
    ∧ ((∀ (url rid : String) (em uid2 : Json) (ts : String),
          push_to_sqs url false rid em uid2 ts = .ok (false, none))
       ∧ (processRecord "url" wState wEnvNoSend).db = wState.db ++ [wItem]
       ∧ wItem ∈ (processRecord "url" wState wEnvNoSend).db
       ∧ (processRecord "url" wState wEnvNoSend).queue = wState.queue
       ∧ (processRecord "url" wState wEnvNoSend).processed = wState.processed + 1) :=
  ⟨rfl,
   dispatch_failure_keeps_record "url" wState wEnvNoSend
     [("text", .str "hello"), ("userId", .str "u1")] [("GEMINI_KEY", .str "k")] "hello" wItem
     rfl rfl (by decide) rfl rfl rfl⟩

/-- C5 (amended): the batch handler always returns a success response whose
counts are the final processed/error counters, even with per-record
failures; in particular a secrets-fetch exception is caught by the
per-record handler, counted as one error, and does not abort the batch. -/
theorem handler_batch_success_and_isolation :
    (∀ (u : String) (st0 : ProcState) (envs : List ProcEnv),
        (handler u st0 envs).2.statusCode = 200
        ∧ (handler u st0 envs).2.processed = (handler u st0 envs).1.processed
        ∧ (handler u st0 envs).2.errors = (handler u st0 envs).1.errors)
    ∧ (∀ (u : String) (st : ProcState) (env : ProcEnv) (e : String)
        (fs : List (String × Json)) (t : String),
        st.secretsCache = none →
        env.secretsFetch = .error e →
        env.parseResult = .ok (.obj fs) →
        fs.lookup "text" = some (.str t) →
        t ≠ "" →
        processRecord u st env = { st with errors := st.errors + 1 }) := by
  constructor
  · intro u st0 envs
    exact ⟨rfl, rfl, rfl⟩
  · intro u st env e fs t hcache hfetch hparse htext hne
    have hfal : pyFalsy (.str t) = false := by simp [pyFalsy, hne]
    unfold processRecord
    rw [hparse]
    simp only [htext, Option.getD_some, hfal, Bool.false_eq_true, if_false,
      get_secrets, hcache, hfetch]

/-- A concrete batch whose only record hits a secrets-fetch exception. -/
def c5State : ProcState :=
  { secretsCache := none, db := [], queue := [], processed := 0, errors := 0 }

/-- The record environment of that batch: decodes fine, has non-empty text,
but the Secrets Manager call raises. -/
def c5Env : ProcEnv :=
  { recordId := "r1", now := "T0",
    parseResult := .ok (.obj [("text", .str "hello"), ("userId", .str "u1")]),
    secretsFetch := .error "ClientError: Secrets Manager",
    gemini := .sdkUnavailable, putOk := true, sendOk := true }

/-- Counterexample to C5 as stated: a batch whose single record fails while
fetching secrets is not aborted by a propagating exception — the handler
returns its normal success response (`statusCode 200`, `processed = 0`,
`errors = 1`) and writes nothing. -/
theorem handler_secrets_failure_returns_success_response :
    (handler "url" c5State [c5Env]).2.statusCode = 200
    ∧ (handler "url" c5State [c5Env]).2.processed = 0
    ∧ (handler "url" c5State [c5Env]).2.errors = 1
    ∧ (handler "url" c5State [c5Env]).1.db = [] :=
  ⟨rfl, rfl, rfl, rfl⟩

/-! ## ASCII Worker — `src/worker/worker.py` -/

/-- The `"happy"` canvas template of `EMOTION_ASCII_MAP` (worker.py). -/
def happyArt : String := "
    ╔══════════════════════════════════════╗
    ║                                      ║
    ║           ╰(*´︶`*)╯                 ║
    ║                                      ║
    ║     ♪ ♫ HAPPINESS DETECTED ♫ ♪      ║
    ║                                      ║
    ║   ☆ﾟ.*･｡ﾟ✧*:..｡✧*:..｡✧.*･ﾟ☆       ║
    ║                                      ║
    ║   Your energy radiates positivity!   ║
    ║   Keep spreading those good vibes    ║
    ║                                      ║
    ╚══════════════════════════════════════╝
    "

/-- The `"excited"` canvas template of `EMOTION_ASCII_MAP` (worker.py). -/
def excitedArt : String := "
    ╔══════════════════════════════════════╗
    ║                                      ║
    ║        ＼(◎o◎)／ EXCITEMENT!        ║
    ║                                      ║
    ║    ★━━━━━━━━★━━━━━━━━★              ║
    ║    ┊ ☆ ┊ ☆ ┊ ☆ ┊ ☆ ┊ ☆ ┊           ║
    ║    ★━━━━━━━━★━━━━━━━━★              ║
    ║                                      ║
    ║   Your enthusiasm is contagious!     ║
    ║   Channel this energy wisely!        ║
    ║                                      ║
    ╚══════════════════════════════════════╝
    "

/-- The `"hopeful"` canvas template of `EMOTION_ASCII_MAP` (worker.py). -/
def hopefulArt : String := "
    ╔══════════════════════════════════════╗
    ║                                      ║
    ║              ☀️                       ║
    ║           ／｜＼                      ║
    ║          ／ ｜ ＼                     ║
    ║             🌱                       ║
    ║                                      ║
    ║      ♡ HOPE BLOOMS WITHIN ♡         ║
    ║                                      ║
    ║   The seeds of tomorrow are          ║
    ║   planted in today's hope            ║
    ║                                      ║
    ╚══════════════════════════════════════╝
    "

/-- The `"anxious"` canvas template of `EMOTION_ASCII_MAP` (worker.py). -/
def anxiousArt : String := "
    ╔══════════════════════════════════════╗
    ║                                      ║
    ║           (・_・;)                   ║
    ║          ／|  |＼                    ║
    ║         ～～～～～～                  ║
    ║                                      ║
    ║      ◈ ANXIETY DETECTED ◈           ║
    ║                                      ║
    ║   Take a deep breath...              ║
    ║   ▓▓▓▓▓▓▓▓▓▓▓                        ║
    ║   One step at a time                 ║
    ║                                      ║
    ╚══════════════════════════════════════╝
    "

/-- The `"stressed"` canvas template of `EMOTION_ASCII_MAP` (worker.py). -/
def stressedArt : String := "
    ╔══════════════════════════════════════╗
    ║                                      ║
    ║         (╯°□°)╯︵ ┻━┻               ║
    ║                                      ║
    ║     ▓▓▓  STRESS LEVEL: HIGH  ▓▓▓    ║
    ║     ████████████████████████████     ║
    ║                                      ║
    ║   Remember:                          ║
    ║   ┏━━━━━━━━━━━━━━━━━━━━━━┓          ║
    ║   ┃ This too shall pass  ┃          ║
    ║   ┗━━━━━━━━━━━━━━━━━━━━━━┛          ║
    ║                                      ║
    ╚══════════════════════════════════════╝
    "

/-- The `"sad"` canvas template of `EMOTION_ASCII_MAP` (worker.py). -/
def sadArt : String := "
    ╔══════════════════════════════════════╗
    ║                                      ║
    ║            (｡•́︿•̀｡)                 ║
    ║                                      ║
    ║          ｡ﾟ(ﾟ´ω`ﾟ)ﾟ｡                ║
    ║                                      ║
    ║      ♡ SADNESS ACKNOWLEDGED ♡        ║
    ║                                      ║
    ║   It's okay to feel this way         ║
    ║   Healing takes time                 ║
    ║   You are not alone ❤️               ║
    ║                                      ║
    ╚══════════════════════════════════════╝
    "

/-- The `"angry"` canvas template of `EMOTION_ASCII_MAP` (worker.py). -/
def angryArt : String := "
    ╔══════════════════════════════════════╗
    ║                                      ║
    ║          (╬ಠ益ಠ)                     ║
    ║         ／|  |＼                     ║
    ║        🔥    🔥                      ║
    ║                                      ║
    ║      ⚠ ANGER DETECTED ⚠             ║
    ║                                      ║
    ║   Channel this energy:               ║
    ║   ┌─────────────────────────┐        ║
    ║   │ Breathe → Process → Act │        ║
    ║   └─────────────────────────┘        ║
    ║                                      ║
    ╚══════════════════════════════════════╝
    "

/-- The `"neutral"` canvas template of `EMOTION_ASCII_MAP` (worker.py). -/
def neutralArt : String := "
    ╔══════════════════════════════════════╗
    ║                                      ║
    ║           (・_・)                    ║
    ║                                      ║
    ║      ━━━━━ NEUTRAL ━━━━━            ║
    ║                                      ║
    ║   ┌────────────────────────┐         ║
    ║   │   Balanced & Present   │         ║
    ║   │        ≋≋≋≋≋≋          │         ║
    ║   │     Mindful Moment     │         ║
    ║   └────────────────────────┘         ║
    ║                                      ║
    ╚══════════════════════════════════════╝
    "

/-- The `"tired"` canvas template of `EMOTION_ASCII_MAP` (worker.py). -/
def tiredArt : String := "
    ╔══════════════════════════════════════╗
    ║                                      ║
    ║          (－_－) zzZ                 ║
    ║                                      ║
    ║      ～～ FATIGUE MODE ～～          ║
    ║                                      ║
    ║   ▓▒░░░░░░░░░░░░░░░░░░░░░▒▓         ║
    ║            Energy: Low               ║
    ║                                      ║
    ║   Rest is productive too!            ║
    ║   Recharge to come back stronger     ║
    ║                                      ║
    ╚══════════════════════════════════════╝
    "

/-- The `"grateful"` canvas template of `EMOTION_ASCII_MAP` (worker.py). -/
def gratefulArt : String := "
    ╔══════════════════════════════════════╗
    ║                                      ║
    ║         (◕‿◕)♡                       ║
    ║                                      ║
    ║      ✿ GRATITUDE FLOWING ✿          ║
    ║                                      ║
    ║   ♡━━━━━━━━━━━━━━━━━━━━━━━━━♡        ║
    ║   │  Thank you for this moment  │   ║
    ║   ♡━━━━━━━━━━━━━━━━━━━━━━━━━♡        ║
    ║                                      ║
    ║   Gratitude transforms everything    ║
    ║                                      ║
    ╚══════════════════════════════════════╝
    "
/-- The metadata footer `generate` appends (worker.py lines 310-316):
`{record_id[:8]}` and the generation timestamp interpolated into the
f-string. -/
def canvasFooter (record_id timestamp : String) : String :=
  "
    ╔══════════════════════════════════════╗
    ║  Sentient Planner - Emotion Canvas   ║
    ║  ID: " ++ pyTake record_id 8 ++ "                          ║
    ║  Generated: " ++ timestamp ++ "   ║
    ╚══════════════════════════════════════╝
        "

/-- `EMOTION_ASCII_MAP` (worker.py lines 87-237), in source order.  The
Python dict has distinct keys, so ordered-list lookup coincides with dict
lookup. -/
def EMOTION_ASCII_MAP : List (String × String) :=
  [("happy", happyArt), ("excited", excitedArt), ("hopeful", hopefulArt),
   ("anxious", anxiousArt), ("stressed", stressedArt), ("sad", sadArt),
   ("angry", angryArt), ("neutral", neutralArt), ("tired", tiredArt),
   ("grateful", gratefulArt)]

/-- `emotion_mapping` of `ASCIIGenerator.generate` (worker.py lines
285-301): synonym aliases folded onto canonical emotions. -/
def emotion_mapping : List (String × String) :=
  [("joyful", "happy"), ("elated", "excited"), ("enthusiastic", "excited"),
   ("optimistic", "hopeful"), ("worried", "anxious"), ("nervous", "anxious"),
   ("overwhelmed", "stressed"), ("depressed", "sad"), ("melancholic", "sad"),
   ("furious", "angry"), ("irritated", "angry"), ("exhausted", "tired"),
   ("fatigued", "tired"), ("thankful", "grateful"), ("appreciative", "grateful")]

/-- The template-selection part of `ASCIIGenerator.generate` (worker.py
lines 281-306): normalise the label (`.lower().strip()`, modelled over the
ASCII range Python and Lean agree on), fold synonyms, and fall back to the
`"neutral"` template for an unmapped label
(`EMOTION_ASCII_MAP.get(mapped_emotion, EMOTION_ASCII_MAP["neutral"])`). -/
def selectedTemplate (emotion : String) : String :=
  (EMOTION_ASCII_MAP.lookup
      ((emotion_mapping.lookup (pyStrip (pyLower emotion))).getD
        (pyStrip (pyLower emotion)))).getD neutralArt

/-- `ASCIIGenerator.generate` (worker.py lines 270-318).  The generation
timestamp (`datetime.now`) is passed explicitly, so the function is a pure
map of its three arguments. -/
def generate (emotion record_id : String) (timestamp : String) : String :=
  selectedTemplate emotion ++ canvasFooter record_id timestamp

/-- Python `str(x)`, as an f-string interpolates a value: exact for the
scalar values this pipeline produces (`None`, booleans, integers, strings);
composite values (which never reach an f-string here — the producer sends
string identifiers) are abbreviated. -/
def pyStr (j : Json) : String :=
  match j with
  | .null => "None"
  | .bool true => "True"
  | .bool false => "False"
  | .num n => toString n
  | .str s => s
  | .arr _ => "[...]"
  | .obj _ => "{...}"

/-- One object of the S3 bucket (the put metadata is omitted; no claim
reads it). -/
structure S3Object where
  key : String
  body : String

/-- The environment configuration the worker reads at start
(worker.py lines 35-39). -/
structure WorkerConfig where
  isLocal : Bool
  endpoint : String
  bucket : String

/-- `upload_to_s3` (worker.py lines 358-392): `uploadOk` is the
`put_object` transport outcome (`false` = `ClientError`/`BotoCoreError`,
logged and re-raised); `date` is `strftime("%Y/%m/%d")` at upload time.  On
success the stored object and the generated URL are returned. -/
def upload_to_s3 (cfg : WorkerConfig) (uploadOk : Bool) (s3 : List S3Object)
    (ascii_art record_id user_id date now : String) :
    Except String (String × List S3Object) :=
  if uploadOk then
    let key := "ascii-art/" ++ user_id ++ "/" ++ date ++ "/" ++ record_id ++ ".txt"
    let url := if cfg.isLocal then cfg.endpoint ++ "/" ++ cfg.bucket ++ "/" ++ key
               else "https://" ++ cfg.bucket ++ ".s3.amazonaws.com/" ++ key
    .ok (url, s3 ++ [{ key := key, body := ascii_art }])
  else .error "ClientError: put_object"

/-- `update_dynamodb` (worker.py lines 395-433): query the partition
`UserId = :uid`, filter by `RecordId = :rid` (DynamoDB equality against a
string attribute is false for a value of another type, hence `Json.eqStr`),
update the first match by its full key; no match is a logged no-op.
`dbOk` is the transport outcome of the query/update calls (`false` =
`ClientError`/`BotoCoreError`, logged and re-raised).  The `timestamp`
argument of the Python function is unused by it and omitted here. -/
def update_dynamodb (dbOk : Bool) (db : List PlanRecord) (user_id record_id : Json)
    (ascii_url now : String) : Except String (List PlanRecord) :=
  if dbOk then
    let items := db.filter (fun r => user_id.eqStr r.UserId && record_id.eqStr r.RecordId)
    .ok (match items with
      | [] => db
      | item :: _ =>
          db.map (fun r =>
            if r.UserId == item.UserId && r.Timestamp == item.Timestamp then
              { r with AsciiUrl := some ascii_url, AsciiStatus := "completed",
                       AsciiGeneratedAt := some now }
            else r))
  else .error "ClientError: query or update_item"

/-- One received SQS message together with the external outcomes its
processing consumes: the receipt handle, the `json.loads(message["Body"])`
outcome, the S3 and DynamoDB transport outcomes, and the clock reads. -/
structure JobEnv where
  handle : String
  body : Except String Json
  uploadOk : Bool
  updateOk : Bool
  date : String
  now : String

/-- `process_message` (worker.py lines 436-472): everything sits in one
`try` whose `except Exception` returns `False`.  A missing (or falsy)
`record_id` returns `False` without an exception.  A non-string emotion
makes `.lower()` raise; a non-string record identifier makes the footer's
slice raise (list-valued identifiers, which would slice, do not occur: the
producer only sends strings).  Returns the success flag together with the
resulting table and bucket. -/
def process_message (cfg : WorkerConfig) (db : List PlanRecord) (s3 : List S3Object)
    (j : JobEnv) : Bool × List PlanRecord × List S3Object :=
  match j.body with
  | .error _ => (false, db, s3)
  | .ok (Json.obj fs) =>
      let record_id := (fs.lookup "record_id").getD .null
      let emotion := (fs.lookup "emotion").getD (.str "neutral")
      let user_id := (fs.lookup "user_id").getD (.str "anonymous")
      if pyFalsy record_id then (false, db, s3)
      else
        match emotion, record_id with
        | .str es, .str rs =>
            let ascii_art := generate es rs j.now
            match upload_to_s3 cfg j.uploadOk s3 ascii_art rs (pyStr user_id) j.date j.now with
            | .error _ => (false, db, s3)
            | .ok (url, s3a) =>
                match update_dynamodb j.updateOk db user_id record_id url j.now with
                | .error _ => (false, db, s3a)
                | .ok db2 => (true, db2, s3a)
        | _, _ => (false, db, s3)
  | .ok _ => (false, db, s3)

/-- The blob upload of a job completed without raising: the body decoded to
a dict with a truthy string `record_id` (and a string emotion), and the S3
put succeeded. -/
def jobUpload (j : JobEnv) : Bool :=
  match j.body with
  | .error _ => false
  | .ok (Json.obj fs) =>
      let record_id := (fs.lookup "record_id").getD .null
      let emotion := (fs.lookup "emotion").getD (.str "neutral")
      if pyFalsy record_id then false
      else
        match emotion, record_id with
        | .str _, .str _ => j.uploadOk
        | _, _ => false
  | .ok _ => false

/-- The store update of a job completed without raising (it is only
attempted after a completed upload). -/
def jobUpdate (j : JobEnv) : Bool := jobUpload j && j.updateOk

/-- Whether `process_message` reports the job as successful. -/
def jobSuccess (j : JobEnv) : Bool := jobUpload j && j.updateOk

/-- The success flag of `process_message` does not depend on the current
table or bucket contents: it is exactly `jobSuccess`. -/
theorem process_message_fst (cfg : WorkerConfig) (db : List PlanRecord)
    (s3 : List S3Object) (j : JobEnv) :
    (process_message cfg db s3 j).1 = jobSuccess j := by
  unfold process_message jobSuccess jobUpload
  cases hb : j.body with
  | error e => rfl
  | ok b =>
      cases b with
      | obj fs =>
          by_cases hf : pyFalsy ((fs.lookup "record_id").getD .null) = true
          · simp [hf]
          · simp only [Bool.not_eq_true] at hf
            simp only [hf, Bool.false_eq_true, if_false]
            cases he : (fs.lookup "emotion").getD (.str "neutral") <;>
              cases hr : (fs.lookup "record_id").getD .null <;>
              simp_all
            cases hu : j.uploadOk with
            | false => simp [upload_to_s3]
            | true =>
                cases hd : j.updateOk <;> simp [upload_to_s3, update_dynamodb]
      | null => rfl
      | bool b => rfl
      | num n => rfl
      | str s => rfl
      | arr xs => rfl

/-- The worker's loop state: the DynamoDB table, the S3 bucket, the receipt
handles for which `delete_message` was invoked (`delete_sqs_message`
swallows transport errors, so this records the acknowledgement attempts),
and the two counters of `main`. -/
structure WorkerState where
  db : List PlanRecord
  s3 : List S3Object
  deleted : List String
  processed : Nat
  errors : Nat

/-- The per-message step of `main` (worker.py lines 518-524): process, then
delete and count as processed on success, else count as an error. -/
def processJob (cfg : WorkerConfig) (st : WorkerState) (j : JobEnv) : WorkerState :=
  match process_message cfg st.db st.s3 j with
  | (true, db2, s3b) =>
      { st with db := db2, s3 := s3b, deleted := st.deleted ++ [j.handle],
                processed := st.processed + 1 }
  | (false, db2, s3b) =>
      { st with db := db2, s3 := s3b, errors := st.errors + 1 }

/-- The value of the monotone `shutdown_requested` flag at its `i`-th
observation: `some k` means the signal handler set it before the `k`-th
check, `none` means it is never set within the modelled trace. -/
def obsShutdown (sh : Option Nat) (i : Nat) : Bool :=
  match sh with
  | none => false
  | some k => decide (k ≤ i)

/-- The `for message in messages` loop of `main` (worker.py lines 513-524):
the shutdown flag is observed before each job (check index `i`), and a true
observation breaks out with the batch's remaining jobs untouched. -/
def runJobs (cfg : WorkerConfig) (sh : Option Nat) (i : Nat) (jobs : List JobEnv)
    (st : WorkerState) : WorkerState :=
  match jobs with
  | [] => st
  | j :: rest =>
      if obsShutdown sh i then st
      else runJobs cfg sh (i + 1) rest (processJob cfg st j)

/-- The `while not shutdown_requested` loop of `main` (worker.py lines
508-532) over a finite trace of poll results (`poll_sqs_messages` catches
transport errors and returns an empty batch, so a poll error is an empty
cycle).  The flag is observed at the top of each cycle and before each job;
check indices skipped by an inner break are simply not observed, which is
harmless for the monotone flag. -/
def runMain (cfg : WorkerConfig) (sh : Option Nat) (i : Nat)
    (cycles : List (List JobEnv)) (st : WorkerState) : WorkerState :=
  match cycles with
  | [] => st
  | c :: rest =>
      if obsShutdown sh i then st
      else runMain cfg sh (i + 1 + c.length) rest (runJobs cfg sh (i + 1) c st)

/-- The per-message step in terms of `jobSuccess`: acknowledgement and the
counters depend only on the job's own outcome flags. -/
theorem processJob_fields (cfg : WorkerConfig) (st : WorkerState) (j : JobEnv) :
    (processJob cfg st j).deleted
      = (if jobSuccess j then st.deleted ++ [j.handle] else st.deleted)
    ∧ (processJob cfg st j).processed
      = (if jobSuccess j then st.processed + 1 else st.processed)
    ∧ (processJob cfg st j).errors
      = (if jobSuccess j then st.errors else st.errors + 1) := by
  unfold processJob
  have hfst := process_message_fst cfg st.db st.s3 j
  cases hs : jobSuccess j <;>
    rcases hpm : process_message cfg st.db st.s3 j with ⟨b, db2, s3b⟩ <;>
    rw [hpm] at hfst <;> simp_all

/-- A batch run under a shutdown flag that turns true at check `k` equals a
run without shutdown over exactly the jobs checked before `k`: the loop
never stops mid-job and never touches the remaining jobs. -/
theorem runJobs_shutdown_take (cfg : WorkerConfig) (k : Nat) (jobs : List JobEnv) :
    ∀ (i : Nat) (st : WorkerState),
      runJobs cfg (some k) i jobs st = runJobs cfg none i (jobs.take (k - i)) st := by
  induction jobs with
  | nil => intro i st; simp [runJobs]
  | cons j rest ih =>
      intro i st
      by_cases h : k ≤ i
      · have hobs : obsShutdown (some k) i = true := by
          simp [obsShutdown, h]
        have hz : k - i = 0 := Nat.sub_eq_zero_of_le h
        simp [runJobs, hobs, hz]
      · have hobs : obsShutdown (some k) i = false := by
          simp [obsShutdown]; omega
        have hobs2 : obsShutdown none i = false := rfl
        have hs : k - i = (k - (i + 1)) + 1 := by omega
        rw [hs]
        simp only [runJobs, hobs, hobs2, List.take_succ_cons, Bool.false_eq_true, if_false]
        exact ih (i + 1) (processJob cfg st j)

/-- Without a shutdown the batch loop acknowledges exactly the successful
jobs (in order) and counts successes and failures. -/
theorem runJobs_counts (cfg : WorkerConfig) (jobs : List JobEnv) :
    ∀ (i : Nat) (st : WorkerState),
      (runJobs cfg none i jobs st).deleted
        = st.deleted ++ (jobs.filter (fun j => jobSuccess j)).map JobEnv.handle
      ∧ (runJobs cfg none i jobs st).processed
        = st.processed + jobs.countP (fun j => jobSuccess j)
      ∧ (runJobs cfg none i jobs st).errors
        = st.errors + jobs.countP (fun j => !jobSuccess j) := by
  induction jobs with
  | nil => intro i st; exact ⟨by simp [runJobs], by simp [runJobs], by simp [runJobs]⟩
  | cons j rest ih =>
      intro i st
      have hstep : runJobs cfg none i (j :: rest) st
          = runJobs cfg none (i + 1) rest (processJob cfg st j) := rfl
      obtain ⟨ihd, ihp, ihe⟩ := ih (i + 1) (processJob cfg st j)
      obtain ⟨hd, hp, he⟩ := processJob_fields cfg st j
      rw [hstep]
      refine ⟨?_, ?_, ?_⟩
      · rw [ihd, hd, List.filter_cons]
        cases hs : jobSuccess j <;> simp
      · rw [ihp, hp, List.countP_cons]
        cases hs : jobSuccess j <;> simp <;> omega
      · rw [ihe, he, List.countP_cons]
        cases hs : jobSuccess j <;> simp <;> omega

/-- The flags mirror the observable effects: a job without a completed
upload leaves the bucket unchanged, and one without a completed update
leaves the table unchanged. -/
theorem process_message_frame (cfg : WorkerConfig) (db : List PlanRecord)
    (s3 : List S3Object) (j : JobEnv) :
    (jobUpload j = false → (process_message cfg db s3 j).2.2 = s3)
    ∧ (jobUpdate j = false → (process_message cfg db s3 j).2.1 = db) := by
  unfold process_message jobUpdate jobUpload
  cases hb : j.body with
  | error e => exact ⟨fun _ => rfl, fun _ => rfl⟩
  | ok b =>
      cases b with
      | obj fs =>
          by_cases hf : pyFalsy ((fs.lookup "record_id").getD .null) = true
          · simp [hf]
          · simp only [Bool.not_eq_true] at hf
            simp only [hf, Bool.false_eq_true, if_false]
            cases he : (fs.lookup "emotion").getD (.str "neutral") <;>
              cases hr : (fs.lookup "record_id").getD .null <;>
              simp_all
            cases hu : j.uploadOk with
            | false => simp [upload_to_s3]
            | true =>
                cases hd : j.updateOk <;> simp [upload_to_s3, update_dynamodb]
      | null => exact ⟨fun _ => rfl, fun _ => rfl⟩
      | bool b => exact ⟨fun _ => rfl, fun _ => rfl⟩
      | num n => exact ⟨fun _ => rfl, fun _ => rfl⟩
      | str s => exact ⟨fun _ => rfl, fun _ => rfl⟩
      | arr xs => exact ⟨fun _ => rfl, fun _ => rfl⟩

/-- A job whose S3 put fails never counts as a completed upload. -/
theorem jobUpload_false_of_uploadFail (j : JobEnv) (h : j.uploadOk = false) :
    jobUpload j = false := by
  unfold jobUpload
  cases hb : j.body with
  | error e => rfl
  | ok b =>
      cases b with
      | obj fs =>
          simp only [h]
          split
          · rfl
          · split <;> rfl
      | null => rfl
      | bool b => rfl
      | num n => rfl
      | str s => rfl
      | arr xs => rfl

/-- C3: the worker acknowledges (deletes) a job exactly when both the blob
upload and the store update completed without raising; on any failure the
job is not deleted, the error counter is incremented, and the loop simply
moves on to the next job of the batch.  A forced upload failure in
particular leaves the job unacknowledged. -/
theorem worker_ack_iff_upload_and_update :
    (∀ (j : JobEnv), jobSuccess j = true ↔ (jobUpload j = true ∧ jobUpdate j = true))
    ∧ (∀ (cfg : WorkerConfig) (st : WorkerState) (j : JobEnv),
        (processJob cfg st j).deleted
          = if jobSuccess j then st.deleted ++ [j.handle] else st.deleted)
    ∧ (∀ (cfg : WorkerConfig) (st : WorkerState) (j : JobEnv), jobSuccess j = false →
        (processJob cfg st j).deleted = st.deleted
        ∧ (processJob cfg st j).errors = st.errors + 1
        ∧ (processJob cfg st j).processed = st.processed)
    ∧ (∀ (j : JobEnv), j.uploadOk = false → jobSuccess j = false)
    ∧ (∀ (cfg : WorkerConfig) (st : WorkerState) (j : JobEnv), jobUpload j = false →
        (processJob cfg st j).s3 = st.s3)
    ∧ (∀ (cfg : WorkerConfig) (st : WorkerState) (j : JobEnv), jobUpdate j = false →
        (processJob cfg st j).db = st.db)
    ∧ (∀ (cfg : WorkerConfig) (sh : Option Nat) (i : Nat) (st : WorkerState)
        (j : JobEnv) (rest : List JobEnv), obsShutdown sh i = false →
        runJobs cfg sh i (j :: rest) st = runJobs cfg sh (i + 1) rest (processJob cfg st j)) := by
  refine ⟨?_, ?_, ?_, ?_, ?_, ?_, ?_⟩
  · intro j
    cases hu : jobUpload j <;> cases hd : j.updateOk <;>
      simp [jobSuccess, jobUpdate, hu, hd]
  · intro cfg st j
    exact (processJob_fields cfg st j).1
  · intro cfg st j hs
    obtain ⟨hd, hp, he⟩ := processJob_fields cfg st j
    rw [hs] at hd hp he
    simp only [Bool.false_eq_true, if_false] at hd hp he
    exact ⟨hd, he, hp⟩
  · intro j h
    simp [jobSuccess, jobUpload_false_of_uploadFail j h]
  · intro cfg st j h
    have hfr := (process_message_frame cfg st.db st.s3 j).1 h
    unfold processJob
    rcases hpm : process_message cfg st.db st.s3 j with ⟨b, db2, s3b⟩
    rw [hpm] at hfr
    cases b <;> simpa using hfr
  · intro cfg st j h
    have hfr := (process_message_frame cfg st.db st.s3 j).2 h
    unfold processJob
    rcases hpm : process_message cfg st.db st.s3 j with ⟨b, db2, s3b⟩
    rw [hpm] at hfr
    cases b <;> simpa using hfr
  · intro cfg sh i st j rest h
    simp [runJobs, h]

/-- Witness for C3's per-job conjuncts at a concrete job whose upload is
forced to fail. -/
def wFailJob : JobEnv :=
  { handle := "h0",
    body := .ok (.obj [("record_id", .str "r0"), ("user_id", .str "u0"),
                       ("emotion", .str "happy"), ("timestamp", .str "T")]),
    uploadOk := false, updateOk := true, date := "2025/01/02", now := "T1" }

/-- An empty worker state for the witnesses. -/
def wWorkerState : WorkerState :=
  { db := [], s3 := [], deleted := [], processed := 0, errors := 0 }

/-- The worker configuration used by the witnesses. -/
def wCfg : WorkerConfig :=
  { isLocal := false, endpoint := "http://localhost:4566",
    bucket := "sentient-planner-bucket" }

/-- C7: when the shutdown signal is observed with some of a polled batch
still unprocessed, the run equals a run over exactly the completed prefix
(the loop never exits mid-job), the acknowledged handles are exactly those
of the completed successful jobs, the processed counter counts only
completed jobs, and a flag already set at the top of a poll cycle stops the
loop with the state untouched. -/
theorem worker_shutdown_leaves_unprocessed :
    (∀ (cfg : WorkerConfig) (k : Nat) (jobs : List JobEnv) (st : WorkerState),
        runJobs cfg (some k) 0 jobs st = runJobs cfg none 0 (jobs.take k) st)
    ∧ (∀ (cfg : WorkerConfig) (k : Nat) (jobs : List JobEnv) (st : WorkerState),
        (runJobs cfg (some k) 0 jobs st).deleted
          = st.deleted ++ ((jobs.take k).filter (fun j => jobSuccess j)).map JobEnv.handle
        ∧ (runJobs cfg (some k) 0 jobs st).processed
          = st.processed + (jobs.take k).countP (fun j => jobSuccess j)
        ∧ (runJobs cfg (some k) 0 jobs st).errors
          = st.errors + (jobs.take k).countP (fun j => !jobSuccess j))
    ∧ (∀ (cfg : WorkerConfig) (k i : Nat) (cycles : List (List JobEnv)) (st : WorkerState),
        k ≤ i → runMain cfg (some k) i cycles st = st) := by
  have h1 : ∀ (cfg : WorkerConfig) (k : Nat) (jobs : List JobEnv) (st : WorkerState),
      runJobs cfg (some k) 0 jobs st = runJobs cfg none 0 (jobs.take k) st := by
    intro cfg k jobs st
    simpa using runJobs_shutdown_take cfg k jobs 0 st
  refine ⟨h1, ?_, ?_⟩
  · intro cfg k jobs st
    rw [h1]
    exact runJobs_counts cfg (jobs.take k) 0 st
  · intro cfg k i cycles st h
    cases cycles with
    | nil => rfl
    | cons c rest =>
        have hobs : obsShutdown (some k) i = true := by simp [obsShutdown, h]
        simp [runMain, hobs]

/-- C8: a job whose `(userId, recordId)` lookup matches no stored
`PlanRecord` is processed as a successful no-op: the table is unchanged,
the job is reported successful, acknowledged (deleted), and counted as
processed — so a lost record causes no redelivery loop. -/
theorem lost_record_job_still_deleted (cfg : WorkerConfig) (st : WorkerState) (j : JobEnv)
    (fs : List (String × Json)) (r es : String)
    (hbody : j.body = .ok (.obj fs))
    (hrid : (fs.lookup "record_id").getD .null = .str r)
    (hr : r ≠ "")
    (hem : (fs.lookup "emotion").getD (.str "neutral") = .str es)
    (hup : j.uploadOk = true)
    (hupd : j.updateOk = true)
    (hnomatch : st.db.filter (fun rec =>
        ((fs.lookup "user_id").getD (.str "anonymous")).eqStr rec.UserId
          && (Json.str r).eqStr rec.RecordId) = []) :
    jobSuccess j = true
    ∧ (processJob cfg st j).db = st.db
    ∧ (processJob cfg st j).deleted = st.deleted ++ [j.handle]
    ∧ (processJob cfg st j).processed = st.processed + 1
    ∧ (processJob cfg st j).errors = st.errors := by
  have hfal : pyFalsy (.str r) = false := by simp [pyFalsy, hr]
  have hsucc : jobSuccess j = true := by
    simp only [jobSuccess, jobUpdate, jobUpload, hbody, hrid, hem, hfal,
      Bool.false_eq_true, if_false, hup, hupd, Bool.and_self]
  have hpm : process_message cfg st.db st.s3 j
      = (true, st.db,
         st.s3 ++ [{ key := "ascii-art/"
                       ++ pyStr ((fs.lookup "user_id").getD (.str "anonymous"))
                       ++ "/" ++ j.date ++ "/" ++ r ++ ".txt",
                     body := generate es r j.now }]) := by
    unfold process_message
    simp only [hbody, hrid, hem, hfal, Bool.false_eq_true, if_false, upload_to_s3, hup,
      update_dynamodb, hupd, if_true, hnomatch]
  refine ⟨hsucc, ?_, ?_, ?_, ?_⟩ <;> unfold processJob <;> rw [hpm]

/-- A job referring to a record absent from the (empty) table. -/
def wLostJob : JobEnv :=
  { handle := "h1",
    body := .ok (.obj [("record_id", .str "r1"), ("user_id", .str "u1"),
                       ("emotion", .str "happy"), ("timestamp", .str "T")]),
    uploadOk := true, updateOk := true, date := "2025/01/02", now := "T1" }

/-- Witness for C8 at a concrete job against an empty table. -/
theorem lost_record_job_still_deleted_witness :
    wLostJob.body = .ok (.obj [("record_id", .str "r1"), ("user_id", .str "u1"),
                               ("emotion", .str "happy"), ("timestamp", .str "T")])
    ∧ ("r1" : String) ≠ ""
    ∧ (jobSuccess wLostJob = true
       ∧ (processJob wCfg wWorkerState wLostJob).db = wWorkerState.db
       ∧ (processJob wCfg wWorkerState wLostJob).deleted = wWorkerState.deleted ++ ["h1"]
       ∧ (processJob wCfg wWorkerState wLostJob).processed = wWorkerState.processed + 1
       ∧ (processJob wCfg wWorkerState wLostJob).errors = wWorkerState.errors) :=
  ⟨rfl, by decide,
   lost_record_job_still_deleted wCfg wWorkerState wLostJob
     [("record_id", .str "r1"), ("user_id", .str "u1"),
      ("emotion", .str "happy"), ("timestamp", .str "T")] "r1" "happy"
     rfl rfl (by decide) rfl rfl rfl rfl⟩

/-- C10: a queue message whose decoded body lacks `record_id` is counted as
an error and never deleted (it stays on the queue for provider redelivery),
and its processing leaves the table and bucket untouched — unlike the
not-found-record case, which is acknowledged. -/
theorem missing_record_id_never_deleted (cfg : WorkerConfig) (st : WorkerState)
    (j : JobEnv) (fs : List (String × Json))
    (hbody : j.body = .ok (.obj fs))
    (hrid : fs.lookup "record_id" = none) :
    jobSuccess j = false
    ∧ (processJob cfg st j).deleted = st.deleted
    ∧ (processJob cfg st j).errors = st.errors + 1
    ∧ (processJob cfg st j).processed = st.processed
    ∧ (processJob cfg st j).db = st.db
    ∧ (processJob cfg st j).s3 = st.s3 := by
  have hpm : process_message cfg st.db st.s3 j = (false, st.db, st.s3) := by
    unfold process_message
    simp only [hbody, hrid, Option.getD_none, pyFalsy, if_true]
  have hsucc : jobSuccess j = false := by
    have : jobUpload j = false := by
      simp only [jobUpload, hbody, hrid, Option.getD_none, pyFalsy, if_true]
    simp [jobSuccess, this]
  refine ⟨hsucc, ?_, ?_, ?_, ?_, ?_⟩ <;> unfold processJob <;> rw [hpm]

/-- A job whose body has no `record_id` key. -/
def wNoRidJob : JobEnv :=
  { handle := "h2", body := .ok (.obj [("emotion", .str "sad")]),
    uploadOk := true, updateOk := true, date := "2025/01/02", now := "T2" }

/-- Witness for C10 at a concrete message with no `record_id`. -/
theorem missing_record_id_never_deleted_witness :
    wNoRidJob.body = .ok (.obj [("emotion", .str "sad")])
    ∧ (jobSuccess wNoRidJob = false
       ∧ (processJob wCfg wWorkerState wNoRidJob).deleted = wWorkerState.deleted
       ∧ (processJob wCfg wWorkerState wNoRidJob).errors = wWorkerState.errors + 1
       ∧ (processJob wCfg wWorkerState wNoRidJob).processed = wWorkerState.processed
       ∧ (processJob wCfg wWorkerState wNoRidJob).db = wWorkerState.db
       ∧ (processJob wCfg wWorkerState wNoRidJob).s3 = wWorkerState.s3) :=
  ⟨rfl,
   missing_record_id_never_deleted wCfg wWorkerState wNoRidJob
     [("emotion", .str "sad")] rfl rfl⟩

/-- C9 (amended): every successful upload stores the artifact at the key
`ascii-art/{userId}/{yyyy/mm/dd}/{recordId}.txt` — namespaced by user,
generation date and record identifier, but under the prefix `ascii-art/`,
not `artifacts/`. -/
theorem upload_key_namespaced (cfg : WorkerConfig) (s3 : List S3Object)
    (art rid uid date now : String) :
    upload_to_s3 cfg true s3 art rid uid date now
      = .ok ((if cfg.isLocal then
                cfg.endpoint ++ "/" ++ cfg.bucket ++ "/"
                  ++ ("ascii-art/" ++ uid ++ "/" ++ date ++ "/" ++ rid ++ ".txt")
              else
                "https://" ++ cfg.bucket ++ ".s3.amazonaws.com/"
                  ++ ("ascii-art/" ++ uid ++ "/" ++ date ++ "/" ++ rid ++ ".txt")),
             s3 ++ [{ key := "ascii-art/" ++ uid ++ "/" ++ date ++ "/" ++ rid ++ ".txt",
                      body := art }]) := rfl

/-- Counterexample to C9 as stated: at a concrete successful upload the
stored key is `ascii-art/u1/2025/01/02/r1.txt`, which is not of the
`artifacts/...` form the claim gives. -/
theorem upload_key_is_ascii_art_not_artifacts :
    upload_to_s3 wCfg true [] "ART" "r1" "u1" "2025/01/02" "T"
      = .ok ("https://sentient-planner-bucket.s3.amazonaws.com/ascii-art/u1/2025/01/02/r1.txt",
             [{ key := "ascii-art/u1/2025/01/02/r1.txt", body := "ART" }])
    ∧ "ascii-art/u1/2025/01/02/r1.txt" ≠ "artifacts/u1/2025/01/02/r1.txt" :=
  ⟨rfl, by decide⟩

/-- Looking a key up in an association list and defaulting yields either
the default or one of the list's values. -/
theorem mem_snd_of_getD_lookup {β : Type} (l : List (String × β)) (k : String) (d : β) :
    (l.lookup k).getD d = d ∨ (l.lookup k).getD d ∈ l.map Prod.snd := by
  induction l with
  | nil => left; rfl
  | cons p rest ih =>
      rcases p with ⟨a, b⟩
      by_cases h : k = a
      · subst h
        simp [List.lookup]
      · have hba : (k == a) = false := beq_eq_false_iff_ne.mpr h
        rcases ih with ih | ih
        · left
          simpa [List.lookup, hba] using ih
        · right
          simp only [List.lookup, hba]
          exact List.mem_cons_of_mem b ih

/-- A key outside an association list's key column looks up to nothing. -/
theorem lookup_eq_none_of_not_mem_fst {β : Type} (l : List (String × β)) (k : String)
    (h : k ∉ l.map Prod.fst) : l.lookup k = none := by
  induction l with
  | nil => rfl
  | cons p rest ih =>
      rcases p with ⟨a, b⟩
      simp only [List.map_cons, List.mem_cons, not_or] at h
      obtain ⟨h1, h2⟩ := h
      have hba : (k == a) = false := beq_eq_false_iff_ne.mpr h1
      simp [List.lookup, hba, ih h2]

/-- C6: the emotion-to-template mapping is total and deterministic.
`generate` is a pure function of its arguments (with the timestamp passed
in, two calls with identical arguments are the same term), every label
resolves to exactly one template of the fixed set — the neutral default for
every unmapped label, never an error — and each synonym alias renders the
same canvas as its canonical emotion.  The Python
`EMOTION_ASCII_MAP["neutral"]` default is the map's own `"neutral"`
entry. -/
theorem emotion_template_total_and_deterministic :
    EMOTION_ASCII_MAP.lookup "neutral" = some neutralArt
    ∧ (∀ (e rid ts : String), generate e rid ts = selectedTemplate e ++ canvasFooter rid ts)
    ∧ (∀ e : String, selectedTemplate e ∈ EMOTION_ASCII_MAP.map Prod.snd)
    ∧ (∀ e : String,
        ((emotion_mapping.lookup (pyStrip (pyLower e))).getD (pyStrip (pyLower e)))
            ∉ EMOTION_ASCII_MAP.map Prod.fst →
        selectedTemplate e = neutralArt)
    ∧ (∀ (a c : String), (a, c) ∈ emotion_mapping →
        ∀ (rid ts : String), generate a rid ts = generate c rid ts)
    ∧ selectedTemplate " Joyful " = happyArt
    ∧ selectedTemplate "confused" = neutralArt := by
  refine ⟨rfl, fun e rid ts => rfl, ?_, ?_, ?_, rfl, rfl⟩
  · intro e
    unfold selectedTemplate
    rcases mem_snd_of_getD_lookup EMOTION_ASCII_MAP
        ((emotion_mapping.lookup (pyStrip (pyLower e))).getD (pyStrip (pyLower e)))
        neutralArt
      with h | h
    · rw [h]
      simp [EMOTION_ASCII_MAP]
    · exact h
  · intro e h
    unfold selectedTemplate
    rw [lookup_eq_none_of_not_mem_fst _ _ h]
    rfl
  · intro a c hmem rid ts
    have hsel : selectedTemplate a = selectedTemplate c := by
      fin_cases hmem <;> rfl
    simp [generate, hsel]

end SentientPlanner
